import Mathlib

/-!
Verification of the intake-form normalizer/validator
(`0_基本情報入力.py`) and the regional-statistics REST client
(`resas_client.py`) of this repository, as a shallow embedding in Lean.

Strings are modelled as Lean `String` (a list of Unicode scalar values),
matching Python's view of `str` as a sequence of code points.
-/

/-- The character translation table `JP_MAP` from the source:
`str.maketrans("０１２３４５６７８９．，", "0123456789..")`.
Each full-width digit maps to its half-width digit, the full-width
period `．` maps to `.`, and the full-width comma `，` maps to `.`
(the 12th character of the target string is `.`, not `,`). Characters
outside the table are unchanged. -/
def trJP (c : Char) : Char :=
  if c = '０' then '0' else if c = '１' then '1' else if c = '２' then '2'
  else if c = '３' then '3' else if c = '４' then '4' else if c = '５' then '5'
  else if c = '６' then '6' else if c = '７' then '7' else if c = '８' then '8'
  else if c = '９' then '9' else if c = '．' then '.' else if c = '，' then '.'
  else c

/-- The whitespace set of Python `str.strip()` (characters for which
`str.isspace()` is true). -/
def isPySpace (c : Char) : Bool :=
  [' ', '\t', '\n', '\r', '\x0b', '\x0c', '\x1c', '\x1d', '\x1e', '\x1f',
   '\x85', '\xa0', '\u1680', '\u2000', '\u2001', '\u2002', '\u2003',
   '\u2004', '\u2005', '\u2006', '\u2007', '\u2008', '\u2009', '\u200a',
   '\u2028', '\u2029', '\u202f', '\u205f', '\u3000'].contains c

/-- Python `str.strip()` on a list of characters: remove leading and
trailing whitespace. -/
def pyStrip (l : List Char) : List Char :=
  (l.dropWhile isPySpace).rdropWhile isPySpace

/-- `to_half` on the character list: the body of
`v.translate(JP_MAP).replace(",","").replace("，","").strip()`,
operation by operation (translate, remove ASCII commas, remove
full-width commas, strip). -/
def to_halfL (l : List Char) : List Char :=
  pyStrip (((l.map trJP).filter (fun c => c != ',')).filter (fun c => c != '，'))

/-- The normalizer `to_half` from the source. -/
def to_half (v : String) : String :=
  ⟨to_halfL v.data⟩

/-- Python's `str.isdigit()` at the character level, modelled for the
character repertoire this form can produce after translation: ASCII
digits and full-width digits. -/
def pyIsdigitChar (c : Char) : Bool :=
  c.isDigit || (0xFF10 ≤ c.toNat && c.toNat ≤ 0xFF19)

/-- Python's `str.isdigit()`: true iff the string is non-empty and all
of its characters are digits. -/
def pyIsdigit (s : String) : Bool :=
  !s.data.isEmpty && s.data.all pyIsdigitChar

/-- `is_int` from the source: `v and to_half(v).isdigit()` (truthiness
of the string `v` is non-emptiness). -/
def is_int (v : String) : Bool :=
  (v != "") && pyIsdigit (to_half v)

/-- `char_len` from the source: `len(s)`, the number of code points. -/
def char_len (s : String) : Nat :=
  s.length

-- Characterization of `trJP`: every character either is left unchanged
-- and is outside the translation domain, or is sent into the output
-- repertoire (half-width digits and the period).

/-- The 12-character domain of `JP_MAP`. -/
def jpDomain : List Char :=
  ['０', '１', '２', '３', '４', '５', '６', '７', '８', '９', '．', '，']

/-- The output repertoire of `JP_MAP`. -/
def jpRange : List Char :=
  ['0', '1', '2', '3', '4', '5', '6', '7', '8', '9', '.']

theorem trJP_eq_of_not_mem (c : Char) (h : c ∉ jpDomain) : trJP c = c := by
  have h0 : c ≠ '０' := fun hc => h (by rw [hc]; decide)
  have h1 : c ≠ '１' := fun hc => h (by rw [hc]; decide)
  have h2 : c ≠ '２' := fun hc => h (by rw [hc]; decide)
  have h3 : c ≠ '３' := fun hc => h (by rw [hc]; decide)
  have h4 : c ≠ '４' := fun hc => h (by rw [hc]; decide)
  have h5 : c ≠ '５' := fun hc => h (by rw [hc]; decide)
  have h6 : c ≠ '６' := fun hc => h (by rw [hc]; decide)
  have h7 : c ≠ '７' := fun hc => h (by rw [hc]; decide)
  have h8 : c ≠ '８' := fun hc => h (by rw [hc]; decide)
  have h9 : c ≠ '９' := fun hc => h (by rw [hc]; decide)
  have h10 : c ≠ '．' := fun hc => h (by rw [hc]; decide)
  have h11 : c ≠ '，' := fun hc => h (by rw [hc]; decide)
  simp [trJP, h0, h1, h2, h3, h4, h5, h6, h7, h8, h9, h10, h11]

theorem trJP_mem_range_of_mem (c : Char) (h : c ∈ jpDomain) : trJP c ∈ jpRange := by
  fin_cases h <;> decide

theorem trJP_idem (c : Char) : trJP (trJP c) = trJP c := by
  by_cases hd : c ∈ jpDomain
  · have h1 := trJP_mem_range_of_mem c hd
    have h2 : ∀ d ∈ jpRange, trJP d = d := by decide
    rw [h2 _ h1]
  · rw [trJP_eq_of_not_mem c hd]
    exact trJP_eq_of_not_mem c hd

theorem trJP_ne_fullcomma (c : Char) : trJP c ≠ '，' := by
  by_cases hd : c ∈ jpDomain
  · have h1 := trJP_mem_range_of_mem c hd
    intro hc
    rw [hc] at h1
    exact absurd h1 (by decide)
  · rw [trJP_eq_of_not_mem c hd]
    intro hc
    exact hd (by rw [hc]; decide)

-- Idempotence of the strip step.

theorem dropWhile_rdropWhile_dropWhile (p : Char → Bool) (l : List Char) :
    ((l.dropWhile p).rdropWhile p).dropWhile p = (l.dropWhile p).rdropWhile p := by
  cases h : (l.dropWhile p).rdropWhile p with
  | nil => simp
  | cons a t =>
    obtain ⟨u, hu⟩ := List.rdropWhile_prefix p (l.dropWhile p)
    rw [h] at hu
    have hu' : l.dropWhile p = a :: (t ++ u) := by rw [← hu]; rfl
    have hpa : p a = false := by
      have hidem := List.dropWhile_idempotent p l
      rw [hu'] at hidem
      by_cases hpa : p a = true
      · rw [List.dropWhile_cons, if_pos hpa] at hidem
        have hle := (@List.dropWhile_sublist _ (t ++ u) p).length_le
        rw [hidem] at hle
        simp at hle
      · simpa using hpa
    simp [List.dropWhile_cons, hpa]

theorem pyStrip_idem (l : List Char) : pyStrip (pyStrip l) = pyStrip l := by
  unfold pyStrip
  rw [dropWhile_rdropWhile_dropWhile, List.rdropWhile_idempotent]

theorem mem_pyStrip {c : Char} {l : List Char} (h : c ∈ pyStrip l) : c ∈ l :=
  (List.dropWhile_suffix _).sublist.subset
    (( List.rdropWhile_prefix _ _).sublist.subset h)

-- Every character surviving `to_half` is a fixed point of the
-- translation table and is neither an ASCII nor a full-width comma.

theorem mem_to_halfL {c : Char} {l : List Char} (h : c ∈ to_halfL l) :
    trJP c = c ∧ c ≠ ',' ∧ c ≠ '，' := by
  unfold to_halfL at h
  have h1 := mem_pyStrip h
  rw [List.mem_filter] at h1
  obtain ⟨h2, hcomma2⟩ := h1
  rw [List.mem_filter] at h2
  obtain ⟨h3, hcomma1⟩ := h2
  rw [List.mem_map] at h3
  obtain ⟨a, _, ha⟩ := h3
  refine ⟨?_, by simpa using hcomma1, by simpa using hcomma2⟩
  rw [← ha, trJP_idem]

theorem to_halfL_idem (l : List Char) : to_halfL (to_halfL l) = to_halfL l := by
  have hmap : (to_halfL l).map trJP = to_halfL l := by
    have hfix : ∀ c ∈ to_halfL l, trJP c = id c := fun c hc => (mem_to_halfL hc).1
    rw [List.map_congr_left hfix, List.map_id]
  have hf1 : (to_halfL l).filter (fun c => c != ',') = to_halfL l :=
    List.filter_eq_self.mpr (fun c hc => by simpa using (mem_to_halfL hc).2.1)
  have hf2 : (to_halfL l).filter (fun c => c != '，') = to_halfL l :=
    List.filter_eq_self.mpr (fun c hc => by simpa using (mem_to_halfL hc).2.2)
  conv_lhs => rw [to_halfL]
  rw [hmap, hf1, hf2]
  exact pyStrip_idem (((l.map trJP).filter fun c => c != ',').filter fun c => c != '，')

/-- C8: the normalizer is idempotent: for every string `s`,
`to_half (to_half s) = to_half s`. -/
theorem to_half_idempotent (s : String) : to_half (to_half s) = to_half s :=
  congrArg String.mk (to_halfL_idem s.data)

/-- C1: evaluation of `to_half` at the failing input `"１，０００"`
(full-width one, full-width comma, three full-width zeros): the
translation table `JP_MAP` sends the full-width comma to `.`, so the
result is `"1.000"`, not the comma-free `"1000"` the spec asks for. -/
theorem to_half_fullwidth_comma_to_period :
    to_half "１，０００" = "1.000" ∧ to_half "１，０００" ≠ "1000" := by
  decide

/-!
The intake record (`TypedDict UI` in the source) and the validator.
Field names are romanized; the original keys appear as the string
literals used in the error dictionary, exactly as in the source:
`gyoshu_dai` = 業種_大分類, `gyoshu_chu` = 業種_中分類,
`product_service` = 主な商品・サービス, `customer_segments` = 顧客層,
`price_tier` = 価格帯, `sales_channel` = 販売方法,
`employee_count` = 従業員数.  The `TypedDict` is `total=False`; an
absent text field behaves like `""` and an absent multiselect like `[]`
under the truthiness tests the code performs, so the record is modelled
with all fields present.
-/

structure UI where
  gyoshu_dai : String
  gyoshu_chu : String
  mid_display : String
  pref_name : String
  city_name : String
  pref_code : String
  city_code : String
  product_service : String
  customer_segments : List String
  price_tier : String
  sales_channel : String
  employee_count : String
deriving DecidableEq

/-- Error message of the required-field check. -/
def req_msg : String := "必須入力です"

/-- Error message of the customer-segment minimum-selection check. -/
def seg_msg : String := "1 つ以上選択してください"

/-- Error message of the description bounded-length check. -/
def len_msg : String := "100〜200文字で入力してください"

/-- Error message of the employee-count integer check. -/
def int_msg : String := "整数で入力してください"

/-- Python `dict` assignment `e[k] = v` on an insertion-ordered
association list: replace in place if the key exists, else append. -/
def dictInsert (e : List (String × String)) (k v : String) :
    List (String × String) :=
  if e.any (fun p => p.1 == k) then
    e.map (fun p => if p.1 == k then (k, v) else p)
  else e ++ [(k, v)]

/-- One conditional dict assignment `if cond: e[k] = v` of the
validator, acting on the error dict built so far. -/
def step (c : Prop) [Decidable c] (k v : String)
    (e : List (String × String)) : List (String × String) :=
  if c then dictInsert e k v else e

/-- `validate` from the source, statement by statement (innermost
application first): the required loop over the eight `req` keys
(`not ui.get(k)` is emptiness), the customer-segment minimum-selection
check (`isinstance(..., list)` is always true here since the field is
a list), the description length check on `prod`, and the integer check
over `INT_FIELDS = ["従業員数"]`. -/
def validate (ui : UI) : List (String × String) :=
  step (ui.employee_count ≠ "" ∧ is_int ui.employee_count = false) "従業員数" int_msg
  (step (ui.product_service ≠ "" ∧
      ¬(100 ≤ char_len ui.product_service ∧ char_len ui.product_service ≤ 200))
      "主な商品・サービス" len_msg
  (step (ui.customer_segments = []) "顧客層" seg_msg
  (step (ui.sales_channel = "") "販売方法" req_msg
  (step (ui.price_tier = "") "価格帯" req_msg
  (step (ui.customer_segments = []) "顧客層" req_msg
  (step (ui.product_service = "") "主な商品・サービス" req_msg
  (step (ui.city_name = "") "city_name" req_msg
  (step (ui.pref_name = "") "pref_name" req_msg
  (step (ui.gyoshu_chu = "") "業種_中分類" req_msg
  (step (ui.gyoshu_dai = "") "業種_大分類" req_msg []))))))))))

-- Association-list lookup lemmas for `dictInsert`.

theorem lookup_of_forall_ne (e : List (String × String)) (k : String)
    (h : ∀ p ∈ e, p.1 ≠ k) : e.lookup k = none := by
  induction e with
  | nil => rfl
  | cons p es ih =>
    obtain ⟨a, b⟩ := p
    have hk : (k == a) = false :=
      beq_eq_false_iff_ne.mpr
        (fun he => (h (a, b) (List.mem_cons_self _ _)) he.symm)
    simp only [List.lookup_cons, hk]
    exact ih (fun q hq => h q (List.mem_cons_of_mem _ hq))

theorem lookup_append_of_none (e e' : List (String × String)) (k : String)
    (h : e.lookup k = none) : (e ++ e').lookup k = e'.lookup k := by
  induction e with
  | nil => rfl
  | cons p es ih =>
    obtain ⟨a, b⟩ := p
    cases hk : (k == a) with
    | true =>
      simp only [List.lookup_cons, hk] at h
      simp at h
    | false =>
      simp only [List.lookup_cons, hk] at h
      simp only [List.cons_append, List.lookup_cons, hk]
      exact ih h

theorem lookup_map_overwrite_ne (e : List (String × String)) (k' v k : String)
    (h : k' ≠ k) :
    (e.map (fun p => if p.1 == k' then (k', v) else p)).lookup k = e.lookup k := by
  induction e with
  | nil => rfl
  | cons p es ih =>
    obtain ⟨a, b⟩ := p
    by_cases hq : a = k'
    · have hab : (a == k') = true := beq_iff_eq.mpr hq
      have hk1 : (k == k') = false := beq_eq_false_iff_ne.mpr (fun he => h he.symm)
      have hk2 : (k == a) = false := by rw [hq]; exact hk1
      simp only [List.map_cons, hab, if_true, List.lookup_cons, hk1, hk2]
      exact ih
    · have hab : (a == k') = false := beq_eq_false_iff_ne.mpr hq
      simp only [List.map_cons, hab, Bool.false_eq_true, if_false, List.lookup_cons]
      cases hk : (k == a)
      · simp only [hk]
        exact ih
      · simp only [hk]

theorem lookup_map_overwrite_self (e : List (String × String)) (k v : String)
    (h : e.any (fun p => p.1 == k) = true) :
    (e.map (fun p => if p.1 == k then (k, v) else p)).lookup k = some v := by
  induction e with
  | nil => simp at h
  | cons p es ih =>
    obtain ⟨a, b⟩ := p
    by_cases hp : a = k
    · subst hp
      simp [List.map_cons, List.lookup_cons]
    · have hab : (a == k) = false := beq_eq_false_iff_ne.mpr hp
      have hka : (k == a) = false :=
        beq_eq_false_iff_ne.mpr (fun he => hp he.symm)
      simp only [List.map_cons, hab, Bool.false_eq_true, if_false,
        List.lookup_cons, hka]
      apply ih
      simp only [List.any_cons, hab, Bool.false_or] at h
      exact h

theorem lookup_append_single_ne (e : List (String × String)) (k' v k : String)
    (h : k' ≠ k) : (e ++ [(k', v)]).lookup k = e.lookup k := by
  induction e with
  | nil =>
    have hk : (k == k') = false := beq_eq_false_iff_ne.mpr (fun he => h he.symm)
    simp [List.lookup_cons, hk]
  | cons p es ih =>
    obtain ⟨a, b⟩ := p
    simp only [List.cons_append, List.lookup_cons]
    cases hk : (k == a) <;> simp [ih]

theorem lookup_dictInsert_self (e : List (String × String)) (k v : String) :
    (dictInsert e k v).lookup k = some v := by
  unfold dictInsert
  split
  case isTrue h => exact lookup_map_overwrite_self e k v h
  case isFalse h =>
    have hnone : e.lookup k = none := by
      apply lookup_of_forall_ne
      intro p hp he
      exact h (by rw [List.any_eq_true]; exact ⟨p, hp, by rw [he]; simp⟩)
    rw [lookup_append_of_none e _ k hnone]
    simp [List.lookup_cons]

theorem lookup_dictInsert_ne (e : List (String × String)) (k' v k : String)
    (h : k' ≠ k) : (dictInsert e k' v).lookup k = e.lookup k := by
  unfold dictInsert
  split
  · exact lookup_map_overwrite_ne e k' v k h
  · exact lookup_append_single_ne e k' v k h

-- Lookup through one validator step.

theorem lookup_step_ne (c : Prop) [Decidable c] (k' v : String)
    (e : List (String × String)) (k : String) (h : k' ≠ k) :
    (step c k' v e).lookup k = e.lookup k := by
  unfold step
  split
  · exact lookup_dictInsert_ne e k' v k h
  · rfl

theorem lookup_step_self (c : Prop) [Decidable c] (k v : String)
    (e : List (String × String)) :
    (step c k v e).lookup k = if c then some v else e.lookup k := by
  unfold step
  split
  · rw [lookup_dictInsert_self]
  · rfl

-- Per-field characterizations of the validator output, obtained by
-- peeling the step chain of `validate` from the outside in.

theorem lookup_gyoshu_dai (ui : UI) :
    (validate ui).lookup "業種_大分類" =
      if ui.gyoshu_dai = "" then some req_msg else none := by
  unfold validate
  rw [lookup_step_ne _ "従業員数" int_msg _ "業種_大分類" (by decide),
    lookup_step_ne _ "主な商品・サービス" len_msg _ "業種_大分類" (by decide),
    lookup_step_ne _ "顧客層" seg_msg _ "業種_大分類" (by decide),
    lookup_step_ne _ "販売方法" req_msg _ "業種_大分類" (by decide),
    lookup_step_ne _ "価格帯" req_msg _ "業種_大分類" (by decide),
    lookup_step_ne _ "顧客層" req_msg _ "業種_大分類" (by decide),
    lookup_step_ne _ "主な商品・サービス" req_msg _ "業種_大分類" (by decide),
    lookup_step_ne _ "city_name" req_msg _ "業種_大分類" (by decide),
    lookup_step_ne _ "pref_name" req_msg _ "業種_大分類" (by decide),
    lookup_step_ne _ "業種_中分類" req_msg _ "業種_大分類" (by decide),
    lookup_step_self]
  rfl

theorem lookup_gyoshu_chu (ui : UI) :
    (validate ui).lookup "業種_中分類" =
      if ui.gyoshu_chu = "" then some req_msg else none := by
  unfold validate
  rw [lookup_step_ne _ "従業員数" int_msg _ "業種_中分類" (by decide),
    lookup_step_ne _ "主な商品・サービス" len_msg _ "業種_中分類" (by decide),
    lookup_step_ne _ "顧客層" seg_msg _ "業種_中分類" (by decide),
    lookup_step_ne _ "販売方法" req_msg _ "業種_中分類" (by decide),
    lookup_step_ne _ "価格帯" req_msg _ "業種_中分類" (by decide),
    lookup_step_ne _ "顧客層" req_msg _ "業種_中分類" (by decide),
    lookup_step_ne _ "主な商品・サービス" req_msg _ "業種_中分類" (by decide),
    lookup_step_ne _ "city_name" req_msg _ "業種_中分類" (by decide),
    lookup_step_ne _ "pref_name" req_msg _ "業種_中分類" (by decide),
    lookup_step_self,
    lookup_step_ne _ "業種_大分類" req_msg _ "業種_中分類" (by decide)]
  rfl

theorem lookup_pref_name (ui : UI) :
    (validate ui).lookup "pref_name" =
      if ui.pref_name = "" then some req_msg else none := by
  unfold validate
  rw [lookup_step_ne _ "従業員数" int_msg _ "pref_name" (by decide),
    lookup_step_ne _ "主な商品・サービス" len_msg _ "pref_name" (by decide),
    lookup_step_ne _ "顧客層" seg_msg _ "pref_name" (by decide),
    lookup_step_ne _ "販売方法" req_msg _ "pref_name" (by decide),
    lookup_step_ne _ "価格帯" req_msg _ "pref_name" (by decide),
    lookup_step_ne _ "顧客層" req_msg _ "pref_name" (by decide),
    lookup_step_ne _ "主な商品・サービス" req_msg _ "pref_name" (by decide),
    lookup_step_ne _ "city_name" req_msg _ "pref_name" (by decide),
    lookup_step_self,
    lookup_step_ne _ "業種_中分類" req_msg _ "pref_name" (by decide),
    lookup_step_ne _ "業種_大分類" req_msg _ "pref_name" (by decide)]
  rfl

theorem lookup_city_name (ui : UI) :
    (validate ui).lookup "city_name" =
      if ui.city_name = "" then some req_msg else none := by
  unfold validate
  rw [lookup_step_ne _ "従業員数" int_msg _ "city_name" (by decide),
    lookup_step_ne _ "主な商品・サービス" len_msg _ "city_name" (by decide),
    lookup_step_ne _ "顧客層" seg_msg _ "city_name" (by decide),
    lookup_step_ne _ "販売方法" req_msg _ "city_name" (by decide),
    lookup_step_ne _ "価格帯" req_msg _ "city_name" (by decide),
    lookup_step_ne _ "顧客層" req_msg _ "city_name" (by decide),
    lookup_step_ne _ "主な商品・サービス" req_msg _ "city_name" (by decide),
    lookup_step_self,
    lookup_step_ne _ "pref_name" req_msg _ "city_name" (by decide),
    lookup_step_ne _ "業種_中分類" req_msg _ "city_name" (by decide),
    lookup_step_ne _ "業種_大分類" req_msg _ "city_name" (by decide)]
  rfl

theorem lookup_product_service (ui : UI) :
    (validate ui).lookup "主な商品・サービス" =
      if ui.product_service ≠ "" ∧
          ¬(100 ≤ char_len ui.product_service ∧ char_len ui.product_service ≤ 200)
      then some len_msg
      else if ui.product_service = "" then some req_msg else none := by
  unfold validate
  rw [lookup_step_ne _ "従業員数" int_msg _ "主な商品・サービス" (by decide),
    lookup_step_self,
    lookup_step_ne _ "顧客層" seg_msg _ "主な商品・サービス" (by decide),
    lookup_step_ne _ "販売方法" req_msg _ "主な商品・サービス" (by decide),
    lookup_step_ne _ "価格帯" req_msg _ "主な商品・サービス" (by decide),
    lookup_step_ne _ "顧客層" req_msg _ "主な商品・サービス" (by decide),
    lookup_step_self,
    lookup_step_ne _ "city_name" req_msg _ "主な商品・サービス" (by decide),
    lookup_step_ne _ "pref_name" req_msg _ "主な商品・サービス" (by decide),
    lookup_step_ne _ "業種_中分類" req_msg _ "主な商品・サービス" (by decide),
    lookup_step_ne _ "業種_大分類" req_msg _ "主な商品・サービス" (by decide)]
  rfl

theorem lookup_kokyakuso (ui : UI) :
    (validate ui).lookup "顧客層" =
      if ui.customer_segments = [] then some seg_msg else none := by
  unfold validate
  rw [lookup_step_ne _ "従業員数" int_msg _ "顧客層" (by decide),
    lookup_step_ne _ "主な商品・サービス" len_msg _ "顧客層" (by decide),
    lookup_step_self,
    lookup_step_ne _ "販売方法" req_msg _ "顧客層" (by decide),
    lookup_step_ne _ "価格帯" req_msg _ "顧客層" (by decide),
    lookup_step_self,
    lookup_step_ne _ "主な商品・サービス" req_msg _ "顧客層" (by decide),
    lookup_step_ne _ "city_name" req_msg _ "顧客層" (by decide),
    lookup_step_ne _ "pref_name" req_msg _ "顧客層" (by decide),
    lookup_step_ne _ "業種_中分類" req_msg _ "顧客層" (by decide),
    lookup_step_ne _ "業種_大分類" req_msg _ "顧客層" (by decide)]
  by_cases h : ui.customer_segments = [] <;> simp [h]

theorem lookup_kakakutai (ui : UI) :
    (validate ui).lookup "価格帯" =
      if ui.price_tier = "" then some req_msg else none := by
  unfold validate
  rw [lookup_step_ne _ "従業員数" int_msg _ "価格帯" (by decide),
    lookup_step_ne _ "主な商品・サービス" len_msg _ "価格帯" (by decide),
    lookup_step_ne _ "顧客層" seg_msg _ "価格帯" (by decide),
    lookup_step_ne _ "販売方法" req_msg _ "価格帯" (by decide),
    lookup_step_self,
    lookup_step_ne _ "顧客層" req_msg _ "価格帯" (by decide),
    lookup_step_ne _ "主な商品・サービス" req_msg _ "価格帯" (by decide),
    lookup_step_ne _ "city_name" req_msg _ "価格帯" (by decide),
    lookup_step_ne _ "pref_name" req_msg _ "価格帯" (by decide),
    lookup_step_ne _ "業種_中分類" req_msg _ "価格帯" (by decide),
    lookup_step_ne _ "業種_大分類" req_msg _ "価格帯" (by decide)]
  rfl

theorem lookup_hanbai (ui : UI) :
    (validate ui).lookup "販売方法" =
      if ui.sales_channel = "" then some req_msg else none := by
  unfold validate
  rw [lookup_step_ne _ "従業員数" int_msg _ "販売方法" (by decide),
    lookup_step_ne _ "主な商品・サービス" len_msg _ "販売方法" (by decide),
    lookup_step_ne _ "顧客層" seg_msg _ "販売方法" (by decide),
    lookup_step_self,
    lookup_step_ne _ "価格帯" req_msg _ "販売方法" (by decide),
    lookup_step_ne _ "顧客層" req_msg _ "販売方法" (by decide),
    lookup_step_ne _ "主な商品・サービス" req_msg _ "販売方法" (by decide),
    lookup_step_ne _ "city_name" req_msg _ "販売方法" (by decide),
    lookup_step_ne _ "pref_name" req_msg _ "販売方法" (by decide),
    lookup_step_ne _ "業種_中分類" req_msg _ "販売方法" (by decide),
    lookup_step_ne _ "業種_大分類" req_msg _ "販売方法" (by decide)]
  rfl

theorem lookup_jugyoinsu (ui : UI) :
    (validate ui).lookup "従業員数" =
      if ui.employee_count ≠ "" ∧ is_int ui.employee_count = false
      then some int_msg else none := by
  unfold validate
  rw [lookup_step_self,
    lookup_step_ne _ "主な商品・サービス" len_msg _ "従業員数" (by decide),
    lookup_step_ne _ "顧客層" seg_msg _ "従業員数" (by decide),
    lookup_step_ne _ "販売方法" req_msg _ "従業員数" (by decide),
    lookup_step_ne _ "価格帯" req_msg _ "従業員数" (by decide),
    lookup_step_ne _ "顧客層" req_msg _ "従業員数" (by decide),
    lookup_step_ne _ "主な商品・サービス" req_msg _ "従業員数" (by decide),
    lookup_step_ne _ "city_name" req_msg _ "従業員数" (by decide),
    lookup_step_ne _ "pref_name" req_msg _ "従業員数" (by decide),
    lookup_step_ne _ "業種_中分類" req_msg _ "従業員数" (by decide),
    lookup_step_ne _ "業種_大分類" req_msg _ "従業員数" (by decide)]
  rfl

/-- The nine field names the validator can mention: the eight `req`
keys plus `従業員数` from `INT_FIELDS`. -/
def checkedFields : List String :=
  ["業種_大分類", "業種_中分類", "pref_name", "city_name",
   "主な商品・サービス", "顧客層", "価格帯", "販売方法", "従業員数"]

/-- The four error messages the validator can produce. -/
def msgUniverse : List String :=
  [req_msg, seg_msg, len_msg, int_msg]

theorem keys_map_overwrite (e : List (String × String)) (k v : String) :
    ((e.map (fun p => if p.1 == k then (k, v) else p)).map Prod.fst) =
      e.map Prod.fst := by
  induction e with
  | nil => rfl
  | cons p es ih =>
    obtain ⟨a, b⟩ := p
    by_cases hq : a = k
    · subst hq
      simp only [List.map_cons, beq_self_eq_true, if_true, ih]
    · have hab : (a == k) = false := beq_eq_false_iff_ne.mpr hq
      simp only [List.map_cons, hab, Bool.false_eq_true, if_false, ih]

theorem step_keys (c : Prop) [Decidable c] (k v : String)
    (e : List (String × String)) (hk : k ∈ checkedFields)
    (h : (e.map Prod.fst) ⊆ checkedFields ∧ (e.map Prod.fst).Nodup) :
    ((step c k v e).map Prod.fst) ⊆ checkedFields ∧
      ((step c k v e).map Prod.fst).Nodup := by
  unfold step
  split
  · unfold dictInsert
    split
    case isTrue hp =>
      rw [keys_map_overwrite]
      exact h
    case isFalse hp =>
      have hknot : k ∉ e.map Prod.fst := by
        intro hmem
        rw [List.mem_map] at hmem
        obtain ⟨p, hpe, hpk⟩ := hmem
        exact hp (by rw [List.any_eq_true]; exact ⟨p, hpe, by rw [hpk]; simp⟩)
      constructor
      · intro q hq
        rw [List.map_append] at hq
        rcases List.mem_append.mp hq with hq | hq
        · exact h.1 hq
        · simp at hq
          rw [hq]
          exact hk
      · rw [List.map_append]
        rw [List.nodup_append]
        refine ⟨h.2, by simp, ?_⟩
        intro q hq hq'
        simp at hq'
        rw [hq'] at hq
        exact hknot hq
  · exact h

theorem step_msgs (c : Prop) [Decidable c] (k v : String)
    (e : List (String × String)) (hv : v ∈ msgUniverse)
    (h : (e.map Prod.snd) ⊆ msgUniverse) :
    ((step c k v e).map Prod.snd) ⊆ msgUniverse := by
  unfold step
  split
  · unfold dictInsert
    split
    · intro q hq
      rw [List.map_map, List.mem_map] at hq
      obtain ⟨p, hpe, hpq⟩ := hq
      by_cases hpk : (p.1 == k) = true
      · rw [← hpq]
        simp only [Function.comp, hpk, if_true]
        exact hv
      · have hpk' : (p.1 == k) = false := by simpa using hpk
        rw [← hpq]
        simp only [Function.comp, hpk', Bool.false_eq_true, if_false]
        exact h (List.mem_map.mpr ⟨p, hpe, rfl⟩)
    · intro q hq
      rw [List.map_append] at hq
      rcases List.mem_append.mp hq with hq | hq
      · exact h hq
      · simp at hq
        rw [hq]
        exact hv
  · exact h

/-- Spec-side parser, clearly named and written from the spec's words
("must parse as a base-10 integer", as Python's `int` constructor
accepts): an optional sign followed by at least one decimal digit.
Used only to compare the spec's integer rule with the code's
`isdigit`-based rule. -/
def specIntParse (s : String) : Bool :=
  match s.data with
  | [] => false
  | c :: t =>
    if c = '-' ∨ c = '+' then !t.isEmpty && t.all Char.isDigit
    else (c :: t).all Char.isDigit

-- Concrete intake records used as instances.  Field order:
-- gyoshu_dai, gyoshu_chu, mid_display, pref_name, city_name,
-- pref_code, city_code, product_service, customer_segments,
-- price_tier, sales_channel, employee_count.

/-- A 150-character description (each character multi-byte). -/
def desc150 : String := ⟨List.replicate 150 'あ'⟩

/-- A 99-character description. -/
def desc99 : String := ⟨List.replicate 99 'あ'⟩

/-- A record that passes every validation rule. -/
def uiOK : UI :=
  ⟨"農業，林業", "01", "コード＋名称", "東京都", "新宿区", "13", "13104",
   desc150, ["BtoC (一般)"], "中価格帯", "店舗型", "10"⟩

/-- `uiOK` with a whitespace-only price tier. -/
def uiWS : UI :=
  ⟨"農業，林業", "01", "コード＋名称", "東京都", "新宿区", "13", "13104",
   desc150, ["BtoC (一般)"], " ", "店舗型", "10"⟩

/-- `uiOK` with employee count `"-5"`. -/
def uiNeg5 : UI :=
  ⟨"農業，林業", "01", "コード＋名称", "東京都", "新宿区", "13", "13104",
   desc150, ["BtoC (一般)"], "中価格帯", "店舗型", "-5"⟩

/-- `uiOK` with employee count `"-100"`. -/
def uiNeg100 : UI :=
  ⟨"農業，林業", "01", "コード＋名称", "東京都", "新宿区", "13", "13104",
   desc150, ["BtoC (一般)"], "中価格帯", "店舗型", "-100"⟩

/-- `uiOK` with a 99-character description. -/
def ui99 : UI :=
  ⟨"農業，林業", "01", "コード＋名称", "東京都", "新宿区", "13", "13104",
   desc99, ["BtoC (一般)"], "中価格帯", "店舗型", "10"⟩

/-- `uiOK` with no customer segment selected. -/
def uiNoSeg : UI :=
  ⟨"農業，林業", "01", "コード＋名称", "東京都", "新宿区", "13", "13104",
   desc150, [], "中価格帯", "店舗型", "10"⟩

/-- `uiOK` with the employee count entered in full-width digits. -/
def uiJP : UI :=
  ⟨"農業，林業", "01", "コード＋名称", "東京都", "新宿区", "13", "13104",
   desc150, ["BtoC (一般)"], "中価格帯", "店舗型", "１０"⟩

/-!
Session lifecycle.  The part of `st.session_state` this page touches:
the intake record under the key `"user_input"`, plus whatever keys of
downstream analysis artifacts (external-analysis output, deep-dive
Q&A, SWOT output, root-cause output, action result) other pages have
stored.  `st.success` is a transient toast, not session state.
-/

structure SessionState where
  user_input : UI
  downstream : List String
deriving DecidableEq

/-- `save` from the source: `st.session_state["user_input"] = ui`
followed by `st.success(...)`; no other key is touched. -/
def save (ui : UI) (s : SessionState) : SessionState :=
  ⟨ui, s.downstream⟩

/-- A session state holding every named downstream artifact. -/
def sessionFull : SessionState :=
  ⟨uiOK, ["external_analysis", "deep_dive_qa", "swot", "root_cause",
          "action_result"]⟩

/-!
The regional-statistics REST client (`resas_client.py`).  The network
is an oracle mapping a request (URL plus query parameters, in the
order the source builds its `params` dict) to a response; the JSON
body is abstract (`res.json()` is the identity on it).  Each operation
returns the `raise_for_status`/`json` outcome together with the list
of requests it issued.
-/

/-- `BASE_URL` from the source. -/
def BASE_URL : String := "https://opendata.resas-portal.go.jp/api/v1"

structure Request where
  url : String
  params : List (String × String)
deriving DecidableEq

structure Response (β : Type) where
  status : Nat
  body : β

/-- `requests.Response.raise_for_status()` raises exactly for HTTP
status codes 400–599. -/
def statusFail (s : Nat) : Prop := 400 ≤ s ∧ s < 600

instance statusFail_decidable (s : Nat) : Decidable (statusFail s) :=
  inferInstanceAs (Decidable (400 ≤ s ∧ s < 600))

/-- `res = requests.get(url, params=params); res.raise_for_status();
return res.json()`, with the issued request recorded. -/
def httpGetRaise {β : Type} (oracle : Request → Response β)
    (req : Request) : Except Nat β × List Request :=
  if statusFail (oracle req).status then (Except.error (oracle req).status, [req])
  else (Except.ok (oracle req).body, [req])

/-- `get_population(pref_code, city_code)`. -/
def get_population {β : Type} (oracle : Request → Response β)
    (pref_code : Int) (city_code : String) : Except Nat β × List Request :=
  httpGetRaise oracle
    ⟨BASE_URL ++ "/population/composition/perYear",
     [("prefCode", toString pref_code), ("cityCode", city_code)]⟩

/-- `get_population_pyramid(pref_code, city_code)`. -/
def get_population_pyramid {β : Type} (oracle : Request → Response β)
    (pref_code : Int) (city_code : String) : Except Nat β × List Request :=
  httpGetRaise oracle
    ⟨BASE_URL ++ "/population/pyramid/perYear",
     [("prefCode", toString pref_code), ("cityCode", city_code)]⟩

/-- `get_daytime_population(pref_code, city_code)`. -/
def get_daytime_population {β : Type} (oracle : Request → Response β)
    (pref_code : Int) (city_code : String) : Except Nat β × List Request :=
  httpGetRaise oracle
    ⟨BASE_URL ++ "/population/movement/perDay",
     [("prefCode", toString pref_code), ("cityCode", city_code)]⟩

/-- `get_commuter_flow(pref_code, city_code)`. -/
def get_commuter_flow {β : Type} (oracle : Request → Response β)
    (pref_code : Int) (city_code : String) : Except Nat β × List Request :=
  httpGetRaise oracle
    ⟨BASE_URL ++ "/population/movement/forCommuter",
     [("prefCode", toString pref_code), ("cityCode", city_code)]⟩

/-- `get_industry_structure(pref_code, sic_code, city_code)`; in the
source `city_code` defaults to the sentinel `"-"` meaning
prefecture-level aggregate. -/
def get_industry_structure {β : Type} (oracle : Request → Response β)
    (pref_code : Int) (sic_code city_code : String) :
    Except Nat β × List Request :=
  httpGetRaise oracle
    ⟨BASE_URL ++ "/industry/structure/forIndustry",
     [("prefCode", toString pref_code), ("cityCode", city_code),
      ("sicCode", sic_code)]⟩

/-- `get_industry_sales(pref_code, sic_code, city_code)`; `city_code`
defaults to the sentinel `"-"` in the source. -/
def get_industry_sales {β : Type} (oracle : Request → Response β)
    (pref_code : Int) (sic_code city_code : String) :
    Except Nat β × List Request :=
  httpGetRaise oracle
    ⟨BASE_URL ++ "/industry/sales/forIndustry",
     [("prefCode", toString pref_code), ("cityCode", city_code),
      ("sicCode", sic_code)]⟩

/-- `get_openclose_trend(pref_code, sic_code, city_code)`; `city_code`
defaults to the sentinel `"-"` in the source. -/
def get_openclose_trend {β : Type} (oracle : Request → Response β)
    (pref_code : Int) (sic_code city_code : String) :
    Except Nat β × List Request :=
  httpGetRaise oracle
    ⟨BASE_URL ++ "/industry/openclose/perYear",
     [("prefCode", toString pref_code), ("cityCode", city_code),
      ("sicCode", sic_code)]⟩

/-- What C9 asserts of one client operation with outcome `r`: exactly
one GET request was issued, to the fixed request `req`; the parsed
body is returned when the status is not 4xx/5xx; an error carrying the
status is raised exactly when it is. -/
def oneGet {β : Type} (r : Except Nat β × List Request)
    (oracle : Request → Response β) (req : Request) : Prop :=
  r.2 = [req] ∧
  (¬ statusFail (oracle req).status → r.1 = Except.ok (oracle req).body) ∧
  (statusFail (oracle req).status → r.1 = Except.error (oracle req).status)

theorem oneGet_httpGetRaise {β : Type} (oracle : Request → Response β)
    (req : Request) : oneGet (httpGetRaise oracle req) oracle req := by
  unfold oneGet httpGetRaise
  by_cases h : statusFail (oracle req).status
  · rw [if_pos h]
    exact ⟨rfl, fun hn => absurd h hn, fun _ => rfl⟩
  · rw [if_neg h]
    exact ⟨rfl, fun _ => rfl, fun hs => absurd hs h⟩

/-- C2 counterexample: saving a record (employee count entered as
full-width `"１０"`) over a session holding every named downstream
artifact leaves every artifact in place and stores the record
verbatim: the numeric field remains the raw string, unconverted. -/
theorem save_counterexample :
    (save uiJP sessionFull).downstream =
      ["external_analysis", "deep_dive_qa", "swot", "root_cause",
       "action_result"] ∧
    (save uiJP sessionFull).downstream ≠ [] ∧
    (save uiJP sessionFull).user_input.employee_count = "１０" := by
  decide

/-- C2 (amended): a save stores the intake record in the session state
as-is and touches nothing else: downstream analysis artifacts are left
untouched and no field is converted. -/
theorem save_stores_record_only (ui : UI) (s : SessionState) :
    (save ui s).user_input = ui ∧ (save ui s).downstream = s.downstream :=
  ⟨rfl, rfl⟩

/-- C3 (amended): the validator applies no percentage rule: every
error message it can emit is one of the four fixed messages (required,
minimum-selection, bounded-length, integer); no gross-margin or range
message exists. -/
theorem validate_message_universe (ui : UI) :
    ((validate ui).map Prod.snd) ⊆ msgUniverse := by
  unfold validate
  refine step_msgs _ _ _ _ (by decide) ?_
  refine step_msgs _ _ _ _ (by decide) ?_
  refine step_msgs _ _ _ _ (by decide) ?_
  refine step_msgs _ _ _ _ (by decide) ?_
  refine step_msgs _ _ _ _ (by decide) ?_
  refine step_msgs _ _ _ _ (by decide) ?_
  refine step_msgs _ _ _ _ (by decide) ?_
  refine step_msgs _ _ _ _ (by decide) ?_
  refine step_msgs _ _ _ _ (by decide) ?_
  refine step_msgs _ _ _ _ (by decide) ?_
  refine step_msgs _ _ _ _ (by decide) ?_
  simp

set_option maxRecDepth 8192 in
/-- C3 counterexample: with every other field valid, the value "-100"
in the only numeric field of the record (employee count) yields
exactly the integer error; no field of the validator accepts "-100",
and no gross-margin entry exists. -/
theorem validate_neg100_counterexample :
    validate uiNeg100 = [("従業員数", int_msg)] := by
  decide

/-- C4 (amended): the validator reports an error for the employee
count exactly when the field is non-empty and `is_int` rejects it; and
`is_int` accepts exactly the values whose normalization is a non-empty
string of digit characters (so a signed value such as "-5" is
rejected even though it parses as a base-10 integer). -/
theorem employee_int_rule (ui : UI) :
    ((validate ui).lookup "従業員数"
        = if ui.employee_count ≠ "" ∧ is_int ui.employee_count = false
          then some int_msg else none) ∧
    (is_int ui.employee_count = true ↔
      (ui.employee_count ≠ "" ∧ (to_half ui.employee_count).data ≠ [] ∧
        ∀ c ∈ (to_half ui.employee_count).data, pyIsdigitChar c = true)) := by
  refine ⟨lookup_jugyoinsu ui, ?_⟩
  simp [is_int, pyIsdigit, List.all_eq_true, bne_iff_ne, and_assoc,
    List.isEmpty_iff]

set_option maxRecDepth 8192 in
/-- C4 counterexample: `"-5"` parses as a base-10 integer (spec-side
parser) yet `is_int` rejects it and the validator reports the integer
error for an otherwise-valid record whose employee count is `"-5"`. -/
theorem employee_neg5_counterexample :
    specIntParse (to_half "-5") = true ∧ is_int "-5" = false ∧
      (validate uiNeg5).lookup "従業員数" = some int_msg := by
  decide

set_option maxRecDepth 8192 in
/-- C5 counterexample: a whitespace-only value (the price tier `" "`)
passes the required rule even though it is empty after trimming: the
validator returns an empty error dict on `uiWS`. -/
theorem whitespace_required_counterexample :
    validate uiWS = [] ∧ pyStrip (" ".data) = [] := by
  decide

/-- C5 (amended): a required-field error is reported exactly when the
field value is empty under Python truthiness — no trimming — and the
customer-segment field reports its minimum-selection message exactly
when the selection is empty. -/
theorem required_error_iff_empty (ui : UI) :
    ((validate ui).lookup "業種_大分類" = some req_msg ↔ ui.gyoshu_dai = "") ∧
    ((validate ui).lookup "業種_中分類" = some req_msg ↔ ui.gyoshu_chu = "") ∧
    ((validate ui).lookup "pref_name" = some req_msg ↔ ui.pref_name = "") ∧
    ((validate ui).lookup "city_name" = some req_msg ↔ ui.city_name = "") ∧
    ((validate ui).lookup "主な商品・サービス" = some req_msg ↔
      ui.product_service = "") ∧
    ((validate ui).lookup "価格帯" = some req_msg ↔ ui.price_tier = "") ∧
    ((validate ui).lookup "販売方法" = some req_msg ↔ ui.sales_channel = "") ∧
    ((validate ui).lookup "顧客層" = some seg_msg ↔
      ui.customer_segments = []) := by
  refine ⟨?_, ?_, ?_, ?_, ?_, ?_, ?_, ?_⟩
  · rw [lookup_gyoshu_dai]
    by_cases h : ui.gyoshu_dai = "" <;> simp [h]
  · rw [lookup_gyoshu_chu]
    by_cases h : ui.gyoshu_chu = "" <;> simp [h]
  · rw [lookup_pref_name]
    by_cases h : ui.pref_name = "" <;> simp [h]
  · rw [lookup_city_name]
    by_cases h : ui.city_name = "" <;> simp [h]
  · rw [lookup_product_service]
    by_cases h : ui.product_service = ""
    · simp [h]
    · by_cases hb : 100 ≤ char_len ui.product_service ∧
          char_len ui.product_service ≤ 200
      · simp [h, hb]
      · simp [h, hb, show len_msg ≠ req_msg from by decide]
  · rw [lookup_kakakutai]
    by_cases h : ui.price_tier = "" <;> simp [h]
  · rw [lookup_hanbai]
    by_cases h : ui.sales_channel = "" <;> simp [h]
  · rw [lookup_kokyakuso]
    by_cases h : ui.customer_segments = [] <;> simp [h]

/-- C6: for a non-empty description the bounded-length rule reports
its error exactly when the character count (code points, so each
multi-byte character counts once) is outside [100, 200], and reports
nothing exactly when it is inside. -/
theorem description_length_rule (ui : UI) (h : ui.product_service ≠ "") :
    ((validate ui).lookup "主な商品・サービス" = some len_msg ↔
      ¬(100 ≤ char_len ui.product_service ∧
        char_len ui.product_service ≤ 200)) ∧
    ((validate ui).lookup "主な商品・サービス" = none ↔
      (100 ≤ char_len ui.product_service ∧
        char_len ui.product_service ≤ 200)) := by
  rw [lookup_product_service]
  by_cases hb : 100 ≤ char_len ui.product_service ∧
      char_len ui.product_service ≤ 200
  · simp [h, hb]
  · simp [h, hb]

/-- Witness for C6 at the concrete 99-character description `ui99`. -/
theorem description_length_rule_witness :
    ((validate ui99).lookup "主な商品・サービス" = some len_msg ↔
      ¬(100 ≤ char_len ui99.product_service ∧
        char_len ui99.product_service ≤ 200)) ∧
    ((validate ui99).lookup "主な商品・サービス" = none ↔
      (100 ≤ char_len ui99.product_service ∧
        char_len ui99.product_service ≤ 200)) :=
  description_length_rule ui99 (by decide)

/-- C7: whenever the customer-segments selection is empty the
validator output is a non-empty mapping containing an entry for the
segment field, whatever the other fields hold. -/
theorem empty_segments_always_fail (ui : UI)
    (h : ui.customer_segments = []) :
    validate ui ≠ [] ∧ (validate ui).lookup "顧客層" = some seg_msg := by
  have hl := lookup_kokyakuso ui
  rw [if_pos h] at hl
  refine ⟨?_, hl⟩
  intro hnil
  rw [hnil] at hl
  simp at hl

/-- Witness for C7 at the concrete record `uiNoSeg`. -/
theorem empty_segments_always_fail_witness :
    validate uiNoSeg ≠ [] ∧
      (validate uiNoSeg).lookup "顧客層" = some seg_msg :=
  empty_segments_always_fail uiNoSeg (by decide)

/-- C9: each of the seven client operations issues exactly one GET to
its fixed endpoint with the given codes as query parameters, returns
the parsed body on a non-failure status, and raises exactly on a
4xx/5xx status; no retry and no recovery. -/
theorem resas_seven_operations {β : Type} (oracle : Request → Response β)
    (pref : Int) (city sic : String) :
    oneGet (get_population oracle pref city) oracle
      ⟨"https://opendata.resas-portal.go.jp/api/v1/population/composition/perYear",
        [("prefCode", toString pref), ("cityCode", city)]⟩ ∧
    oneGet (get_population_pyramid oracle pref city) oracle
      ⟨"https://opendata.resas-portal.go.jp/api/v1/population/pyramid/perYear",
        [("prefCode", toString pref), ("cityCode", city)]⟩ ∧
    oneGet (get_daytime_population oracle pref city) oracle
      ⟨"https://opendata.resas-portal.go.jp/api/v1/population/movement/perDay",
        [("prefCode", toString pref), ("cityCode", city)]⟩ ∧
    oneGet (get_commuter_flow oracle pref city) oracle
      ⟨"https://opendata.resas-portal.go.jp/api/v1/population/movement/forCommuter",
        [("prefCode", toString pref), ("cityCode", city)]⟩ ∧
    oneGet (get_industry_structure oracle pref sic city) oracle
      ⟨"https://opendata.resas-portal.go.jp/api/v1/industry/structure/forIndustry",
        [("prefCode", toString pref), ("cityCode", city), ("sicCode", sic)]⟩ ∧
    oneGet (get_industry_sales oracle pref sic city) oracle
      ⟨"https://opendata.resas-portal.go.jp/api/v1/industry/sales/forIndustry",
        [("prefCode", toString pref), ("cityCode", city), ("sicCode", sic)]⟩ ∧
    oneGet (get_openclose_trend oracle pref sic city) oracle
      ⟨"https://opendata.resas-portal.go.jp/api/v1/industry/openclose/perYear",
        [("prefCode", toString pref), ("cityCode", city), ("sicCode", sic)]⟩ := by
  refine ⟨?_, ?_, ?_, ?_, ?_, ?_, ?_⟩ <;> exact oneGet_httpGetRaise oracle _

/-- C10: the validator is field-scoped: its error dict has keys drawn
only from the nine checked field names, with at most one message per
field; as a total pure function of the record in this model it raises
nothing and mutates nothing. -/
theorem validate_field_scoped (ui : UI) :
    ((validate ui).map Prod.fst) ⊆ checkedFields ∧
      ((validate ui).map Prod.fst).Nodup := by
  unfold validate
  refine step_keys _ _ _ _ (by decide) ?_
  refine step_keys _ _ _ _ (by decide) ?_
  refine step_keys _ _ _ _ (by decide) ?_
  refine step_keys _ _ _ _ (by decide) ?_
  refine step_keys _ _ _ _ (by decide) ?_
  refine step_keys _ _ _ _ (by decide) ?_
  refine step_keys _ _ _ _ (by decide) ?_
  refine step_keys _ _ _ _ (by decide) ?_
  refine step_keys _ _ _ _ (by decide) ?_
  refine step_keys _ _ _ _ (by decide) ?_
  refine step_keys _ _ _ _ (by decide) ?_
  exact ⟨by simp, by simp⟩
